import Mathlib

/-!
Verification of the task-lifecycle controller in `monitor.py` of the
`python_soc` repository, together with its command server and the
`management.py` module boundary.

The four task classes (`PingTask`, `HttpTask`, `HttpsTask`, `DnsTask`)
share one state shape: two boolean flags `paused` / `stopped` plus a
condition variable, and identical `pause` / `resume` / `stop` methods.
We embed that shared state machine once (`TaskState`), the server's
per-command dispatch (`dispatch` / `handle`), the per-connection serve
loop and accept loop (`serveConn` / `serverRun`), an interleaving
transition system for one task loop racing a `pause(); stop()` caller
(`Sys`), a lock-usage trace of one loop iteration (`runCycleActions`),
and the import contract between `monitor.py` and `management.py`.
-/

/-- Shared flag state of a task (`PingTask.__init__`, monitor.py lines
145-147, duplicated verbatim in the other three task classes):
`self.paused = False`, `self.stopped = False`. -/
structure TaskState where
  paused : Bool
  stopped : Bool
deriving DecidableEq

/-- Initial task state: both flags false. -/
def TaskState.init : TaskState := ⟨false, false⟩

/-- `pause()` (line 164): `self.paused = True` — a single write, no lock. -/
def TaskState.pause (t : TaskState) : TaskState := { t with paused := true }

/-- `resume()` (lines 168-170): under the condition lock, `self.paused = False`
and `self.condition.notify()`.  On the flag state this is the single write. -/
def TaskState.resume (t : TaskState) : TaskState := { t with paused := false }

/-- `stop()` (lines 174-176): `self.stopped = True`; then
`if self.paused: self.resume()`. -/
def TaskState.stop (t : TaskState) : TaskState :=
  let t1 : TaskState := { t with stopped := true }
  if t1.paused then t1.resume else t1

/-- The three controller operations a task exposes. -/
inductive TaskOp
  | pause
  | resume
  | stop
deriving DecidableEq

/-- Apply one operation to a task's flag state. -/
def applyOp (t : TaskState) (o : TaskOp) : TaskState :=
  match o with
  | .pause => t.pause
  | .resume => t.resume
  | .stop => t.stop

/-- Apply a sequence of operations, oldest first. -/
def applyOps (t : TaskState) (ops : List TaskOp) : TaskState :=
  ops.foldl applyOp t

/-- The three-state view of the spec's task state machine. -/
inductive SpecState
  | RUNNING
  | PAUSED
  | STOPPED
deriving DecidableEq

/-- The spec-level state of a task: `STOPPED` dominates, then `PAUSED`. -/
def stateOf (t : TaskState) : SpecState :=
  if t.stopped then .STOPPED else if t.paused then .PAUSED else .RUNNING

/-- The four tasks owned by `Server.__init__` (monitor.py lines 315-318). -/
structure ServerState where
  ping_task : TaskState
  http_task : TaskState
  https_task : TaskState
  dns_task : TaskState
deriving DecidableEq

/-- Server at startup: all four tasks freshly constructed. -/
def ServerState.init : ServerState :=
  ⟨TaskState.init, TaskState.init, TaskState.init, TaskState.init⟩

/-- Python `str.upper()` restricted to ASCII input: uppercase each
character (`Char.toUpper` agrees with it on every ASCII character; the
serve loop only feeds it strings that decoded as ASCII). -/
def pyUpper (s : String) : String := ⟨s.data.map Char.toUpper⟩

/-- Python ASCII whitespace, as recognised by `str.split()` with no
arguments. -/
def isPySpace (c : Char) : Bool :=
  c = ' ' || c = '\t' || c = '\n' || c = '\r' || c = '\x0b' || c = '\x0c'

/-- Worker for `pySplit`: `acc` holds the reversed characters of the piece
being read; whitespace ends a piece, empty pieces are dropped. -/
def pySplitAux : List Char → List Char → List String
  | [], acc => if acc = [] then [] else [⟨acc.reverse⟩]
  | c :: cs, acc =>
    if isPySpace c then
      if acc = [] then pySplitAux cs []
      else ⟨acc.reverse⟩ :: pySplitAux cs []
    else pySplitAux cs (c :: acc)

/-- Python `str.split()` with no arguments: split on runs of whitespace,
discarding empty pieces (so leading/trailing whitespace yields nothing). -/
def pySplit (s : String) : List String := pySplitAux s.data []

/-- Result of processing one received command string (one iteration of the
inner `while True:` body, monitor.py lines 344-381): the updated server
state, the reply sent with `conn.sendall` (if any), whether the `SHUTDOWN`
branch executed `return`, and the exception raised (if any). -/
structure HandleResult where
  state : ServerState
  sent : Option String
  halted : Bool
  raised : Option String
deriving DecidableEq

/-- Dispatch of an already split command (monitor.py lines 346-381).
Order of the membership tests follows the source: in the `PAUSE` branch,
`HTTP`, then `PING`, then `HTTPS` — where the source calls
`self.https_task.pasue()`, an attribute that does not exist on
`HttpsTask`, so an `AttributeError` is raised and nothing further in the
branch (including `conn.sendall`) runs — then `DNS`.  The `RESUME`
branch pauses nothing and resumes in the order `HTTP`, `PING`, `HTTPS`,
`DNS`.  `SHUTDOWN` stops all four tasks and returns.  A first token
other than these three matches no branch: no reply is sent (there is no
`else` at that level).  Fewer than two tokens: reply `Invalid command`. -/
def dispatch (st : ServerState) (command_parts : List String) : HandleResult :=
  match command_parts with
  | action :: t0 :: ts =>
    let targets := t0 :: ts
    if action = "PAUSE" then
      let st1 := if targets.contains "HTTP" then
        { st with http_task := st.http_task.pause } else st
      let st2 := if targets.contains "PING" then
        { st1 with ping_task := st1.ping_task.pause } else st1
      if targets.contains "HTTPS" then
        { state := st2, sent := none, halted := false,
          raised := some "AttributeError: pasue" }
      else
        let st3 := if targets.contains "DNS" then
          { st2 with dns_task := st2.dns_task.pause } else st2
        { state := st3, sent := some "Command executed", halted := false,
          raised := none }
    else if action = "RESUME" then
      let st1 := if targets.contains "HTTP" then
        { st with http_task := st.http_task.resume } else st
      let st2 := if targets.contains "PING" then
        { st1 with ping_task := st1.ping_task.resume } else st1
      let st3 := if targets.contains "HTTPS" then
        { st2 with https_task := st2.https_task.resume } else st2
      let st4 := if targets.contains "DNS" then
        { st3 with dns_task := st3.dns_task.resume } else st3
      { state := st4, sent := some "Command executed", halted := false,
        raised := none }
    else if action = "SHUTDOWN" then
      { state := { ping_task := st.ping_task.stop,
                   http_task := st.http_task.stop,
                   https_task := st.https_task.stop,
                   dns_task := st.dns_task.stop },
        sent := some "Server shutting down", halted := true, raised := none }
    else
      { state := st, sent := none, halted := false, raised := none }
  | _ =>
    { state := st, sent := some "Invalid command", halted := false,
      raised := none }

/-- Process one received string: decode (assumed ASCII here), uppercase,
split on whitespace, dispatch (monitor.py lines 340, 344). -/
def handle (st : ServerState) (data : String) : HandleResult :=
  dispatch st (pySplit (pyUpper data))

/-- One outcome of `conn.recv(1024).decode('ascii')` (monitor.py line 340):
either a string of ASCII bytes (the empty string when the peer has closed
the connection), a peer reset (`recv` raises `ConnectionResetError`), or
bytes that are not valid ASCII (`decode` raises `UnicodeDecodeError`). -/
inductive RecvEvent
  | bytes (s : String)
  | reset
  | nonAscii
deriving DecidableEq

/-- How the inner serve loop (monitor.py lines 339-381) ends. -/
inductive ServeEnd
  | closedByPeer
  | shutdownReturn
  | raised (e : String)
  | outOfEvents
deriving DecidableEq

/-- Result of the inner serve loop on one connection. -/
structure ServeResult where
  state : ServerState
  replies : List String
  fin : ServeEnd
deriving DecidableEq

/-- The inner `while True:` serve loop of one accepted connection
(monitor.py lines 339-381), driven by the sequence of recv outcomes.
A reset or decode failure raises out of the loop uncaught.  An empty
string (`if not data: break` — `upper()` of a string is empty exactly
when the string is, so we test the raw string) breaks back to the accept
loop.  Otherwise the command is handled; an exception from the handler
(the `pasue` `AttributeError`) propagates, a `SHUTDOWN` returns from
`start`, and anything else continues reading. -/
def serveConn (st : ServerState) : List RecvEvent → ServeResult
  | [] => ⟨st, [], .outOfEvents⟩
  | .reset :: _ => ⟨st, [], .raised "ConnectionResetError"⟩
  | .nonAscii :: _ => ⟨st, [], .raised "UnicodeDecodeError"⟩
  | .bytes s :: rest =>
    if s = "" then ⟨st, [], .closedByPeer⟩
    else
      let r := handle st s
      match r.raised with
      | some e => ⟨r.state, [], .raised e⟩
      | none =>
        let sent := match r.sent with | some m => [m] | none => []
        if r.halted then ⟨r.state, sent, .shutdownReturn⟩
        else
          let k := serveConn r.state rest
          ⟨k.state, sent ++ k.replies, k.fin⟩

/-- How the accept loop (monitor.py lines 335-381) ends. -/
inductive ServerEnd
  | shutdown
  | crashed (e : String)
  | stillAccepting
  | blockedOnRecv
deriving DecidableEq

/-- Result of running the accept loop over a sequence of connections:
final state, number of connections actually served, and how it ended. -/
structure ServerRunResult where
  state : ServerState
  served : Nat
  fin : ServerEnd
deriving DecidableEq

/-- The outer `while True:` accept loop (monitor.py lines 335-381), driven
by the list of connections that will arrive, each given as its recv
outcomes.  A connection closed by its peer loops back to `accept`; a
`SHUTDOWN` executes `return`, so no later connection is accepted; an
uncaught exception (reset, decode failure, the `pasue` `AttributeError`)
propagates out of `start`, also ending the whole server.  With no more
connections the loop blocks in `accept`, still accepting. -/
def serverRun (st : ServerState) : List (List RecvEvent) → ServerRunResult
  | [] => ⟨st, 0, .stillAccepting⟩
  | c :: rest =>
    let r := serveConn st c
    match r.fin with
    | .closedByPeer =>
      let k := serverRun r.state rest
      ⟨k.state, k.served + 1, k.fin⟩
    | .shutdownReturn => ⟨r.state, 1, .shutdown⟩
    | .raised e => ⟨r.state, 1, .crashed e⟩
    | .outOfEvents => ⟨r.state, 1, .blockedOnRecv⟩

/-- Program points of the task loop thread, one per atomic action of
`PingTask.run` (monitor.py lines 154-160): read `self.stopped` in the
while-condition; acquire the condition lock on entering
`with self.condition`; read `self.paused`; either park in
`condition.wait()` (which releases the lock atomically) and later, once
notified, reacquire the lock so `wait` can return; or run `ping()`;
release the lock on leaving the with-block; `time.sleep(1)`; loop exit. -/
inductive LoopPC
  | testStopped
  | acquireCond
  | branchPaused
  | runCheck
  | parkedWait
  | reacquire
  | releaseCond
  | sleepInterval
  | loopExit
deriving DecidableEq

/-- Program points of a controller thread executing `pause()` then
`stop()` (monitor.py lines 162-176): the unlocked write `paused = True`;
the unlocked write `stopped = True`; the unlocked read of `paused` in
`stop`; then, when that read saw true, the inner `resume()`: acquire the
condition lock, write `paused = False` and `notify()` (merged into one
point — both happen under the lock, so no other thread can observe
between them), release the lock; done. -/
inductive CtrlPC
  | setPaused
  | setStopped
  | readPaused
  | acquireCond
  | clearAndNotify
  | releaseCond
  | ctrlDone
deriving DecidableEq

/-- Which thread holds the condition lock. -/
inductive Holder
  | loopThread
  | ctrlThread
deriving DecidableEq

/-- Joint state of one task's loop thread and one controller thread
running `pause(); stop()` against it. -/
structure Sys where
  loopPC : LoopPC
  ctrlPC : CtrlPC
  paused : Bool
  stopped : Bool
  lock : Option Holder
deriving DecidableEq

/-- Initial joint state: loop at the top of `run`, controller about to
call `pause()`, both flags false, lock free. -/
def initSys : Sys := ⟨.testStopped, .setPaused, false, false, none⟩

/-- Enabled successor states of the loop thread (empty when it is parked
in `wait` or has exited, or when it cannot take the lock). -/
def loopSuccs (s : Sys) : List Sys :=
  match s.loopPC with
  | .testStopped =>
    [{ s with loopPC := if s.stopped then .loopExit else .acquireCond }]
  | .acquireCond =>
    if s.lock = none then
      [{ s with loopPC := .branchPaused, lock := some .loopThread }]
    else []
  | .branchPaused =>
    if s.paused then [{ s with loopPC := .parkedWait, lock := none }]
    else [{ s with loopPC := .runCheck }]
  | .runCheck => [{ s with loopPC := .releaseCond }]
  | .parkedWait => []
  | .reacquire =>
    if s.lock = none then
      [{ s with loopPC := .releaseCond, lock := some .loopThread }]
    else []
  | .releaseCond => [{ s with loopPC := .sleepInterval, lock := none }]
  | .sleepInterval => [{ s with loopPC := .testStopped }]
  | .loopExit => []

/-- Enabled successor states of the controller thread.  `notify()` moves a
thread parked in `wait` to the reacquire stage; a notify with no waiter is
lost. -/
def ctrlSuccs (s : Sys) : List Sys :=
  match s.ctrlPC with
  | .setPaused => [{ s with paused := true, ctrlPC := .setStopped }]
  | .setStopped => [{ s with stopped := true, ctrlPC := .readPaused }]
  | .readPaused =>
    [{ s with ctrlPC := if s.paused then .acquireCond else .ctrlDone }]
  | .acquireCond =>
    if s.lock = none then
      [{ s with lock := some .ctrlThread, ctrlPC := .clearAndNotify }]
    else []
  | .clearAndNotify =>
    [{ s with paused := false,
              loopPC := if s.loopPC = .parkedWait then .reacquire else s.loopPC,
              ctrlPC := .releaseCond }]
  | .releaseCond => [{ s with lock := none, ctrlPC := .ctrlDone }]
  | .ctrlDone => []

/-- All enabled successors of a joint state. -/
def succs (s : Sys) : List Sys := loopSuccs s ++ ctrlSuccs s

/-- Reachability from the initial joint state under arbitrary
interleaving. -/
inductive Reach : Sys → Prop
  | init : Reach initSys
  | step {s t : Sys} : Reach s → t ∈ succs s → Reach t

/-- Breadth-first enumeration of reachable states, fuel-bounded. -/
def bfsAux : Nat → List Sys → List Sys → List Sys
  | 0, visited, _ => visited
  | _ + 1, visited, [] => visited
  | n + 1, visited, f :: fs =>
    let ts := (succs f).filter (fun t => !(visited.contains t))
    bfsAux n (visited ++ ts) (fs ++ ts)

/-- The reachable joint states (proved to contain `initSys` and to be
closed under `succs` below). -/
def reachableStates : List Sys := bfsAux 900 [initSys] [initSys]

/-- The unique enabled move of the loop thread once it runs alone (used
after the controller is done; identity when no unique move exists). -/
def loopOnlyNext (s : Sys) : Sys :=
  match loopSuccs s with
  | [x] => x
  | _ => s

/-- Does the loop thread, running alone, reach `loopExit` within `n`
steps? -/
def loopRunsToDone : Nat → Sys → Bool
  | 0, s => s.loopPC = .loopExit
  | n + 1, s => s.loopPC = .loopExit || loopRunsToDone n (loopOnlyNext s)

/-- The atomic actions of one iteration of `PingTask.run`
(monitor.py lines 154-160), in program order. -/
inductive RunAction
  | testStopped
  | acquireLock
  | testPaused
  | waitOnCondition
  | invokeCheck
  | releaseLock
  | sleepInterval
deriving DecidableEq

/-- One iteration of `PingTask.run` as its sequence of actions: the
while-condition read of `stopped`; lock acquisition on entering
`with self.condition`; the `if self.paused` test; then either
`condition.wait()` or the check call `ping()`; the lock release on
leaving the with-block; `time.sleep(1)`.  The other three task classes
have the identical shape with their own check call and interval. -/
def runCycleActions (paused : Bool) : List RunAction :=
  [.testStopped, .acquireLock, .testPaused]
    ++ (if paused then [.waitOnCondition] else [.invokeCheck])
    ++ [.releaseLock, .sleepInterval]

/-- Whether the condition lock is held when the first occurrence of `a`
in the action list executes, scanning left to right from lock state
`held` and tracking acquire/release; `false` if `a` never occurs. -/
def lockHeldWhen (held : Bool) : List RunAction → RunAction → Bool
  | [], _ => false
  | x :: rest, a =>
    if x = a then held
    else
      lockHeldWhen
        (if x = .acquireLock then true
         else if x = .releaseLock then false else held) rest a

/-- The atomic actions of the controller operations `pause` / `resume` /
`stop` (monitor.py lines 162-176). -/
inductive OpAction
  | acquireLock
  | releaseLock
  | writePaused (b : Bool)
  | readPaused
  | writeStopped
  | notifyCond
deriving DecidableEq

/-- `pause()` body (line 164): one unlocked write, no lock taken. -/
def pauseActions : List OpAction := [.writePaused true]

/-- `resume()` body (lines 168-170): acquire the condition lock, clear
`paused`, notify, release. -/
def resumeActions : List OpAction :=
  [.acquireLock, .writePaused false, .notifyCond, .releaseLock]

/-- `stop()` body (lines 174-176): unlocked write of `stopped`, unlocked
read of `paused`, then `resume()` when that read saw true. -/
def stopActions (paused : Bool) : List OpAction :=
  [.writeStopped, .readPaused] ++ (if paused then resumeActions else [])

/-- Top-level names bound by `management.py` when it is imported: its four
imports (management.py lines 1-4) plus `MONITORING_SERVICES` (line 6) and
`PingControlClient` (line 12).  The `if __name__ == "__main__":` block
does not run on import. -/
def managementModuleNames : List String :=
  ["socket", "time", "threading", "NoReturn",
   "MONITORING_SERVICES", "PingControlClient"]

/-- The names `monitor.py` imports from `management` (monitor.py line 14):
`from management import dns_server, dns_queries`. -/
def monitorImportedNames : List String := ["dns_server", "dns_queries"]

/-- Module-level execution of `monitor.py` up to its import statement:
`from management import a, b` raises `ImportError` at the first requested
name the module does not define, before any class or `Server` is defined,
so before any task or server can start. -/
def monitorImportOfManagement : Except String Unit :=
  match monitorImportedNames.filter
      (fun n => !(managementModuleNames.contains n)) with
  | [] => .ok ()
  | n :: _ => .error ("ImportError: cannot import name " ++ n)

/-- Applying any single controller operation preserves a true `stopped`
flag: none of `pause`, `resume`, `stop` ever writes `stopped := false`. -/
theorem applyOp_preserves_stopped (t : TaskState) (o : TaskOp)
    (h : t.stopped = true) : (applyOp t o).stopped = true := by
  cases o with
  | pause => simpa [applyOp, TaskState.pause] using h
  | resume => simpa [applyOp, TaskState.resume] using h
  | stop =>
    simp only [applyOp, TaskState.stop, TaskState.resume]
    split <;> rfl

/-- The initial joint state is in the computed reachable set. -/
theorem initSys_mem_reachable : initSys ∈ reachableStates := by decide

/-- The computed reachable set is closed under every enabled step of
either thread. -/
theorem reachableStates_closed :
    ∀ s ∈ reachableStates, ∀ t ∈ succs s, t ∈ reachableStates := by decide

/-- Every state reachable under arbitrary interleaving is in the computed
reachable set. -/
theorem reach_mem_reachable :
    ∀ s : Sys, Reach s → s ∈ reachableStates := by
  intro s h
  induction h with
  | init => exact initSys_mem_reachable
  | step _ ht ih => exact reachableStates_closed _ ih _ ht

/-- Exhaustive check over the reachable set: once the controller has
completed `pause(); stop()`, the loop thread alone reaches `loopExit`
within 8 steps; and no reachable state is stuck short of full
termination. -/
theorem reachable_ctrlDone_check :
    ∀ s ∈ reachableStates,
      (s.ctrlPC = CtrlPC.ctrlDone → loopRunsToDone 8 s = true) ∧
      (succs s ≠ [] ∨
        (s.loopPC = LoopPC.loopExit ∧ s.ctrlPC = CtrlPC.ctrlDone)) := by decide

/-- Claim C1 (code-bug evidence): processing the command `PAUSE HTTPS` on
a fresh server does not invoke the HTTPS task's `pause()` and does not
reply `Command executed`: the source calls `self.https_task.pasue()`
(monitor.py line 356), an attribute `HttpsTask` does not define, so an
`AttributeError` is raised, no reply is sent, no task is paused, and the
uncaught exception propagates out of `Server.start`, crashing the
server. -/
theorem pause_https_raises_attribute_error :
    handle ServerState.init "PAUSE HTTPS"
      = ⟨ServerState.init, none, false, some "AttributeError: pasue"⟩ ∧
    serverRun ServerState.init [[RecvEvent.bytes "PAUSE HTTPS"]]
      = ⟨ServerState.init, 1,
          ServerEnd.crashed "AttributeError: pasue"⟩ := by decide

/-- Claim C2 (counterexample): the single-token command `SHUTDOWN` does
not stop any task and is not answered with `Server shutting down`: it has
fewer than two tokens, so the server replies `Invalid command`, leaves
every task running, and keeps serving. -/
theorem shutdown_single_token_counterexample :
    handle ServerState.init "SHUTDOWN"
      = ⟨ServerState.init, some "Invalid command", false, none⟩ ∧
    (handle ServerState.init "SHUTDOWN").sent ≠ some "Server shutting down" ∧
    (handle ServerState.init "SHUTDOWN").state.ping_task.stopped = false := by
  decide

/-- Claim C2 (amended): a `SHUTDOWN` command carrying at least one
(ignored) target token stops all four registered tasks, replies
`Server shutting down`, and makes `start` return, so no later event on
the connection is read and no later connection is accepted. -/
theorem shutdown_with_target_stops_all
    (st : ServerState) (data t0 : String) (rest : List String)
    (evs : List RecvEvent) (conns : List (List RecvEvent))
    (h : pySplit (pyUpper data) = "SHUTDOWN" :: t0 :: rest) :
    handle st data =
      ⟨⟨st.ping_task.stop, st.http_task.stop, st.https_task.stop,
          st.dns_task.stop⟩,
        some "Server shutting down", true, none⟩ ∧
    serverRun st ((RecvEvent.bytes data :: evs) :: conns) =
      ⟨⟨st.ping_task.stop, st.http_task.stop, st.https_task.stop,
          st.dns_task.stop⟩,
        1, ServerEnd.shutdown⟩ := by
  have hd : data ≠ "" := by
    intro he
    subst he
    rw [show pySplit (pyUpper "") = [] by decide] at h
    cases h
  have h1 : handle st data =
      ⟨⟨st.ping_task.stop, st.http_task.stop, st.https_task.stop,
          st.dns_task.stop⟩,
        some "Server shutting down", true, none⟩ := by
    unfold handle
    rw [h]
    simp [dispatch]
  refine ⟨h1, ?_⟩
  simp [serverRun, serveConn, hd, h1]

/-- Witness for the amended C2 theorem at the concrete command
`SHUTDOWN ALL` on a fresh server. -/
theorem shutdown_with_target_stops_all_witness :
    handle ServerState.init "SHUTDOWN ALL" =
      ⟨⟨ServerState.init.ping_task.stop, ServerState.init.http_task.stop,
          ServerState.init.https_task.stop, ServerState.init.dns_task.stop⟩,
        some "Server shutting down", true, none⟩ ∧
    serverRun ServerState.init [[RecvEvent.bytes "SHUTDOWN ALL"]] =
      ⟨⟨ServerState.init.ping_task.stop, ServerState.init.http_task.stop,
          ServerState.init.https_task.stop, ServerState.init.dns_task.stop⟩,
        1, ServerEnd.shutdown⟩ :=
  shutdown_with_target_stops_all ServerState.init "SHUTDOWN ALL" "ALL" []
    [] [] (by decide)

/-- Claim C3: in every interleaving of the task loop with a controller
executing `pause()` then `stop()`, once the controller has completed, the
loop thread terminates within a bounded number of its own steps (so it is
never left parked on the condition variable); moreover no reachable joint
state is stuck short of full termination. -/
theorem pause_then_stop_loop_terminates
    (s : Sys) (h : Reach s) :
    (s.ctrlPC = CtrlPC.ctrlDone → loopRunsToDone 8 s = true) ∧
    (succs s ≠ [] ∨
      (s.loopPC = LoopPC.loopExit ∧ s.ctrlPC = CtrlPC.ctrlDone)) :=
  reachable_ctrlDone_check s (reach_mem_reachable s h)

/-- Witness for C3: the joint state in which the controller has fully run
`pause(); stop()` before the loop thread moved at all is reachable, and
from it the loop terminates within 8 steps. -/
theorem pause_then_stop_loop_terminates_witness :
    loopRunsToDone 8
      ⟨LoopPC.testStopped, CtrlPC.ctrlDone, false, true, none⟩ = true := by
  have h1 : Reach (⟨.testStopped, .setStopped, true, false, none⟩ : Sys) :=
    Reach.step Reach.init (by decide)
  have h2 : Reach (⟨.testStopped, .readPaused, true, true, none⟩ : Sys) :=
    Reach.step h1 (by decide)
  have h3 : Reach (⟨.testStopped, .acquireCond, true, true, none⟩ : Sys) :=
    Reach.step h2 (by decide)
  have h4 : Reach (⟨.testStopped, .clearAndNotify, true, true,
      some .ctrlThread⟩ : Sys) :=
    Reach.step h3 (by decide)
  have h5 : Reach (⟨.testStopped, .releaseCond, false, true,
      some .ctrlThread⟩ : Sys) :=
    Reach.step h4 (by decide)
  have h6 : Reach (⟨.testStopped, .ctrlDone, false, true, none⟩ : Sys) :=
    Reach.step h5 (by decide)
  exact (pause_then_stop_loop_terminates _ h6).1 rfl

/-- Claim C4: the `stopped` flag is monotonic — once it is true, no
sequence of further `pause` / `resume` / `stop` calls ever makes it false
again, and the task never returns to the `RUNNING` state. -/
theorem stopped_flag_monotonic
    (ops : List TaskOp) (t : TaskState) (h : t.stopped = true) :
    (applyOps t ops).stopped = true ∧
    stateOf (applyOps t ops) ≠ SpecState.RUNNING := by
  induction ops generalizing t with
  | nil =>
    refine ⟨h, ?_⟩
    simp [applyOps, stateOf, h]
  | cons o os ih =>
    have h2 := applyOp_preserves_stopped t o h
    simpa [applyOps] using ih (applyOp t o) h2

/-- Witness for C4 at a concrete stopped task and the operation sequence
`[resume]`. -/
theorem stopped_flag_monotonic_witness :
    (applyOps ⟨false, true⟩ [TaskOp.resume]).stopped = true ∧
    stateOf (applyOps ⟨false, true⟩ [TaskOp.resume]) ≠ SpecState.RUNNING :=
  stopped_flag_monotonic [TaskOp.resume] ⟨false, true⟩ rfl

/-- Claim C5 (counterexample): `stop()` on an already-stopped task is not
always a no-op.  The state `paused = true, stopped = true` is reachable
(call `stop()` then `pause()` — `pause` has no stopped-guard), and from it
a further `stop()` call flips `paused` back to false, an observable state
change. -/
theorem stop_on_stopped_task_counterexample :
    (TaskState.init.stop.pause).stopped = true ∧
    (TaskState.init.stop.pause).stop ≠ TaskState.init.stop.pause := by decide

/-- Claim C5 (amended): `pause()` on an already-paused task and `resume()`
on a non-paused task leave the state unchanged; `stop()` on an
already-stopped task keeps `stopped` true and forces `paused` to false —
so it leaves the state unchanged exactly when the task is not also
paused; and each operation is idempotent in the algebraic sense
(`op ∘ op = op`).  No operation signals an error. -/
theorem lifecycle_ops_idempotent (t : TaskState) :
    (t.paused = true → t.pause = t) ∧
    (t.paused = false → t.resume = t) ∧
    (t.stopped = true → (t.stop).stopped = true ∧ (t.stop).paused = false) ∧
    (t.stopped = true → t.paused = false → t.stop = t) ∧
    t.pause.pause = t.pause ∧
    t.resume.resume = t.resume ∧
    t.stop.stop = t.stop := by
  obtain ⟨p, s⟩ := t
  cases p <;> cases s <;> decide

/-- Witness for the amended C5 theorem: each conditional part discharged
at a concrete task state satisfying its hypothesis. -/
theorem lifecycle_ops_idempotent_witness :
    (⟨true, false⟩ : TaskState).pause = ⟨true, false⟩ ∧
    (⟨false, false⟩ : TaskState).resume = ⟨false, false⟩ ∧
    (⟨false, true⟩ : TaskState).stop = ⟨false, true⟩ :=
  ⟨(lifecycle_ops_idempotent ⟨true, false⟩).1 rfl,
    (lifecycle_ops_idempotent ⟨false, false⟩).2.1 rfl,
    (lifecycle_ops_idempotent ⟨false, true⟩).2.2.2.1 rfl rfl⟩

/-- Claim C6 (counterexample): the two-token command `STATUS PING`, whose
first token is none of `PAUSE` / `RESUME` / `SHUTDOWN`, is not answered
with `Invalid command`: it matches no branch of the dispatch (there is no
`else` at that level, monitor.py lines 350-378), so the server sends no
reply at all. -/
theorem unknown_action_counterexample :
    (handle ServerState.init "STATUS PING").sent = none ∧
    (handle ServerState.init "STATUS PING").sent ≠ some "Invalid command" := by
  decide

/-- Claim C6 (amended): a command with at least two tokens whose first
token is none of the three recognised actions produces no reply and no
state change; the connection stays open and the serve loop simply reads
the next message. -/
theorem unknown_action_sends_no_reply
    (st : ServerState) (data a b : String) (rest : List String)
    (h : pySplit (pyUpper data) = a :: b :: rest)
    (hp : a ≠ "PAUSE") (hr : a ≠ "RESUME") (hs : a ≠ "SHUTDOWN") :
    handle st data = ⟨st, none, false, none⟩ ∧
    (∀ evs : List RecvEvent,
      serveConn st (RecvEvent.bytes data :: evs) = serveConn st evs) := by
  have hd : data ≠ "" := by
    intro he
    subst he
    rw [show pySplit (pyUpper "") = [] by decide] at h
    cases h
  have h1 : handle st data = ⟨st, none, false, none⟩ := by
    unfold handle
    rw [h]
    simp [dispatch, hp, hr, hs]
  refine ⟨h1, ?_⟩
  intro evs
  simp [serveConn, hd, h1]

/-- Witness for the amended C6 theorem at the concrete command
`STATUS HTTP`. -/
theorem unknown_action_sends_no_reply_witness :
    handle ServerState.init "STATUS HTTP"
      = ⟨ServerState.init, none, false, none⟩ :=
  (unknown_action_sends_no_reply ServerState.init "STATUS HTTP" "STATUS"
    "HTTP" [] (by decide) (by decide) (by decide) (by decide)).1

/-- Claim C7: a `PAUSE` or `RESUME` command whose target list contains
none of the four registry names is answered `Command executed` and leaves
the `paused` and `stopped` flags of every registered task exactly as they
were. -/
theorem unknown_targets_leave_tasks_unchanged
    (st : ServerState) (data act t0 : String) (rest : List String)
    (h : pySplit (pyUpper data) = act :: t0 :: rest)
    (ha : act = "PAUSE" ∨ act = "RESUME")
    (h1 : "PING" ∉ t0 :: rest)
    (h2 : "HTTP" ∉ t0 :: rest)
    (h3 : "HTTPS" ∉ t0 :: rest)
    (h4 : "DNS" ∉ t0 :: rest) :
    handle st data = ⟨st, some "Command executed", false, none⟩ := by
  unfold handle
  rw [h]
  rcases ha with ha | ha <;> subst ha <;> simp [dispatch, h1, h2, h3, h4]

/-- Witness for C7 at the concrete command `PAUSE FOO`. -/
theorem unknown_targets_leave_tasks_unchanged_witness :
    handle ServerState.init "PAUSE FOO"
      = ⟨ServerState.init, some "Command executed", false, none⟩ :=
  unknown_targets_leave_tasks_unchanged ServerState.init "PAUSE FOO"
    "PAUSE" "FOO" [] (by decide) (Or.inl rfl) (by decide) (by decide)
    (by decide) (by decide)

/-- Claim C8 (counterexample): a peer reset on the first connection does
not leave the server accepting: the `ConnectionResetError` is uncaught
(monitor.py has no try/except around lines 335-381), propagates out of
`Server.start`, and the second pending connection — a valid `PAUSE FOO`
session — is never served. -/
theorem transport_error_counterexample :
    serverRun ServerState.init
        [[RecvEvent.reset], [RecvEvent.bytes "PAUSE FOO"]]
      = ⟨ServerState.init, 1, ServerEnd.crashed "ConnectionResetError"⟩ ∧
    (serverRun ServerState.init
        [[RecvEvent.reset], [RecvEvent.bytes "PAUSE FOO"]]).fin
      ≠ ServerEnd.stillAccepting := by decide

/-- Claim C8 (amended): a transport error on the control connection — a
peer reset during `recv` or a decode failure on non-ASCII bytes —
terminates not just that connection's serve loop but the whole server:
the exception propagates out of `Server.start`, and no later connection
is ever accepted, whatever it would have carried. -/
theorem transport_error_kills_server
    (st : ServerState) (evs : List RecvEvent)
    (rest : List (List RecvEvent)) :
    serveConn st (RecvEvent.reset :: evs)
      = ⟨st, [], ServeEnd.raised "ConnectionResetError"⟩ ∧
    serveConn st (RecvEvent.nonAscii :: evs)
      = ⟨st, [], ServeEnd.raised "UnicodeDecodeError"⟩ ∧
    serverRun st ((RecvEvent.reset :: evs) :: rest)
      = ⟨st, 1, ServerEnd.crashed "ConnectionResetError"⟩ ∧
    serverRun st ((RecvEvent.nonAscii :: evs) :: rest)
      = ⟨st, 1, ServerEnd.crashed "UnicodeDecodeError"⟩ := by
  refine ⟨rfl, rfl, ?_, ?_⟩ <;> simp [serverRun, serveConn]

/-- Claim C9 (counterexample): the check function is not invoked outside
the task's condition lock: in the non-paused iteration of `run` the lock
acquired on entering `with self.condition` is still held when `ping()`
(resp. the other check calls) executes. -/
theorem check_under_lock_counterexample :
    lockHeldWhen false (runCycleActions false) RunAction.invokeCheck
      = true := by decide

/-- Claim C9 (amended): the check function runs while the condition lock
is held, so `resume()` — which must acquire that lock — and the
`resume()` performed by `stop()` on a paused task block for the duration
of an in-flight check; `pause()` and the flag writes of `stop()` on a
non-paused task take no lock and are not blocked. -/
theorem check_runs_under_condition_lock :
    lockHeldWhen false (runCycleActions false) RunAction.invokeCheck
      = true ∧
    pauseActions.contains OpAction.acquireLock = false ∧
    (stopActions false).contains OpAction.acquireLock = false ∧
    resumeActions.contains OpAction.acquireLock = true ∧
    (stopActions true).contains OpAction.acquireLock = true := by decide

/-- Claim C10: `monitor.py` cannot be loaded as shipped:
`from management import dns_server, dns_queries` (monitor.py line 14)
requests two names that `management.py` never defines, so the import
raises `ImportError` before any class — in particular `Server` — is
defined, and `Server.start()` is unreachable. -/
theorem management_import_fails :
    monitorImportOfManagement
      = Except.error "ImportError: cannot import name dns_server" ∧
    managementModuleNames.contains "dns_server" = false ∧
    managementModuleNames.contains "dns_queries" = false :=
  ⟨rfl, rfl, rfl⟩
